import Mathlib

/-!
Shallow embedding of `custom_components/modbus-fancoil/climate.py`, the single
source file of the `homeassistant-innova` repository.

Modelling conventions:
* Python unbounded integers are `ℤ`; register payload values read from a
  successful Modbus call are natural numbers (a holding register is 16-bit
  unsigned), while a failed read is modelled by `Option.none`.
* Python floats are modelled exactly as `ℚ` (every value the integration
  manipulates is produced by dividing an integer by 10, which is exact).
* A Python `None` attribute is `Option.none`.
* An `await hub.async_pb_call` read is a parameter of type `Option ℤ`
  (`none` = the hub returned no result); a write outcome is a `Bool`.
* A Python early `return` after logging is modelled by `Option`/structured
  results, an uncaught Python exception by `Except.error`.
-/

namespace Fancoil

/-- Python `~x` on unbounded two's-complement integers (`~x = -x - 1`). -/
def pyNot (x : ℤ) : ℤ := -x - 1

/-- Python `x & y` on unbounded two's-complement integers, written so that every
branch is kernel-executable.  For `a b : ℕ`: `a & b = Nat.land a b`;
`a & ~b = a - (a AND b)` computed as `a XOR (a AND b)` (bitwise difference);
and `~a & ~b = ~(a OR b)`. -/
def pyAnd (x y : ℤ) : ℤ :=
  if 0 ≤ x then
    if 0 ≤ y then ((x.toNat &&& y.toNat : ℕ) : ℤ)
    else ((x.toNat ^^^ (x.toNat &&& (-y - 1).toNat) : ℕ) : ℤ)
  else
    if 0 ≤ y then ((y.toNat ^^^ (y.toNat &&& (-x - 1).toNat) : ℕ) : ℤ)
    else -(((-x - 1).toNat ||| (-y - 1).toNat : ℕ) : ℤ) - 1

/-- Python `x | y`, by De Morgan from `pyAnd` and `pyNot`. -/
def pyOr (x y : ℤ) : ℤ := pyNot (pyAnd (pyNot x) (pyNot y))

/-- Python `x << n` for a nonnegative shift count: multiplication by `2 ^ n`. -/
def pyShl (x : ℤ) (n : ℕ) : ℤ := x * 2 ^ n

/-- Python `int(q)` applied to a number: truncation toward zero. -/
def pyInt (q : ℚ) : ℤ := if 0 ≤ q then ⌊q⌋ else ⌈q⌉

/-- Static method `Fancoil._is_set`: `x & 1 << n != 0`. -/
def is_set (x : ℤ) (n : ℕ) : Bool := pyAnd x (pyShl 1 n) != 0

/-- Home Assistant `HVACMode` members used by the integration. -/
inductive HVACMode where
  | cool
  | heat
  | off
deriving DecidableEq

/-- Class attribute `_attr_fan_modes = ["Auto", "Silent", "Night", "High"]`. -/
def _attr_fan_modes : List String := ["Auto", "Silent", "Night", "High"]

/-- The mutable entity attributes the integration reads and publishes.
A field holding `none` models a Python attribute that is `None`/unset. -/
structure FancoilState where
  target_temperature : Option ℚ
  current_temperature : Option ℚ
  actual_air_speed : Option ℤ
  water_temperature : Option ℤ
  fan_mode : Option String
  hvac_mode : Option HVACMode
deriving DecidableEq

/-- The six register-read outcomes one `async_update` cycle consumes, keyed by
register address.  `none` models the hub call returning no result. -/
structure RefreshReads where
  r231 : Option ℤ
  r0 : Option ℤ
  r15 : Option ℤ
  r1 : Option ℤ
  r201 : Option ℤ
  r233 : Option ℤ
deriving DecidableEq

/-- Method `_async_read_int16_from_register`: a failed hub call is logged and
yields `-1`; a successful one yields `int(result.registers[0])`. -/
def _async_read_int16_from_register : Option ℤ → ℤ
  | none => -1
  | some v => v

/-- Method `_async_read_temp_from_register`: the int16 read as a float; a zero
result (Python falsy) becomes the unscaled sentinel `-1`, otherwise the value
is divided by `10.0`. -/
def _async_read_temp_from_register (r : Option ℤ) : ℚ :=
  let result : ℚ := (_async_read_int16_from_register r : ℤ)
  if result = 0 then -1 else result / 10

/-- Lines 117-143 of `async_update`: the fan-mode decode chain over bits 0-2 of
the flags register, assigning `_attr_fan_modes[0..3]`; `none` models the early
`return` after logging "Received invalid PRG". -/
def fan_mode_step (s : FancoilState) (prg : ℤ) : Option FancoilState :=
  if !is_set prg 0 && !is_set prg 1 && !is_set prg 2 then
    some { s with fan_mode := _attr_fan_modes.get? 0 }
  else if is_set prg 0 && !is_set prg 1 && !is_set prg 2 then
    some { s with fan_mode := _attr_fan_modes.get? 1 }
  else if !is_set prg 0 && is_set prg 1 && !is_set prg 2 then
    some { s with fan_mode := _attr_fan_modes.get? 2 }
  else if is_set prg 0 && is_set prg 1 && !is_set prg 2 then
    some { s with fan_mode := _attr_fan_modes.get? 3 }
  else none

/-- Lines 149-155 of `async_update`: the season decode (`5` gives `COOL`,
`3` or `0` gives `HEAT`); `none` models the early `return` after logging
"Received invalid season value". -/
def season_step (s : FancoilState) (season : ℤ) : Option FancoilState :=
  if season = 5 then some { s with hvac_mode := some HVACMode.cool }
  else if season = 3 ∨ season = 0 then some { s with hvac_mode := some HVACMode.heat }
  else none

/-- Method `async_update`: the four sensor reads are stored unconditionally,
then the flags register is decoded (early return on invalid PRG), then the
season register (early return on invalid season), and finally bit 7 of the
flags forces `HVACMode.off`. -/
def async_update (s : FancoilState) (rd : RefreshReads) : FancoilState :=
  let s := { s with target_temperature := some (_async_read_temp_from_register rd.r231) }
  let s := { s with current_temperature := some (_async_read_temp_from_register rd.r0) }
  let s := { s with actual_air_speed := some (_async_read_int16_from_register rd.r15) }
  let s := { s with water_temperature := some (_async_read_int16_from_register rd.r1) }
  let prg := _async_read_int16_from_register rd.r201
  match fan_mode_step s prg with
  | none => s
  | some s =>
    let season := _async_read_int16_from_register rd.r233
    match season_step s season with
    | none => s
    | some s =>
      if is_set prg 7 then { s with hvac_mode := some HVACMode.off } else s

/-- Result of one command handler: the entity state afterwards, the register
writes issued in order as (address, value) pairs, and the messages logged
through `_LOGGER.error`. -/
structure CmdResult where
  state : FancoilState
  writes : List (ℤ × ℤ)
  logs : List String
deriving DecidableEq

/-- Method `async_set_hvac_mode`.  The mode argument is the Home Assistant
`HVACMode` string value (`"off"`, `"cool"`, `"heat"`).  Reads the flags
register; for `"off"` writes flags with bit 7 set and returns; otherwise picks
the season value (`"cool"` gives 5, `"heat"` gives 0, anything else logs and
returns), writes flags with bit 7 cleared, then writes the season register. -/
def async_set_hvac_mode (s : FancoilState) (hvac_mode : String) (r201 : Option ℤ) :
    CmdResult :=
  let curr_prg := _async_read_int16_from_register r201
  if hvac_mode = "off" then
    { state := s, writes := [(201, pyOr curr_prg (pyShl 1 7))], logs := [] }
  else if hvac_mode = "cool" then
    { state := s, writes := [(201, pyAnd curr_prg (pyNot (pyShl 1 7))), (233, 5)],
      logs := [] }
  else if hvac_mode = "heat" then
    { state := s, writes := [(201, pyAnd curr_prg (pyNot (pyShl 1 7))), (233, 0)],
      logs := [] }
  else
    { state := s, writes := [], logs := ["Modbus error setting hvac mode"] }

/-- Method `async_set_temperature`.  `temperature` is `kwargs.get(ATTR_TEMPERATURE)`
(`none` when the key is missing); `write_ok` is the outcome of the register-231
write.  The raw written value is `int(target_temperature * 10)`; the cached
target is updated only when the write succeeds. -/
def async_set_temperature (s : FancoilState) (temperature : Option ℚ) (write_ok : Bool) :
    CmdResult :=
  match temperature with
  | none => { state := s, writes := [], logs := ["Received invalid temperature"] }
  | some target_temperature =>
    if write_ok then
      { state := { s with target_temperature := some target_temperature },
        writes := [(231, pyInt (target_temperature * 10))], logs := [] }
    else
      { state := s, writes := [(231, pyInt (target_temperature * 10))],
        logs := ["Modbus error setting target temperature to Flexit"] }

/-- Python `list.index`: position of the first occurrence, `none` standing for
the `ValueError` raised when the element is absent. -/
def list_index (l : List String) (x : String) : Option ℕ :=
  l.findIdx? (· == x)

/-- Lines 206-213 of `async_set_fan_mode`: the new flags value computed from the
fan-mode index, `curr_prg & ~0b111` possibly `| 0b001`/`0b010`/`0b011`. -/
def fan_encode (index : ℕ) (curr_prg : ℤ) : ℤ :=
  if index = 0 then pyAnd curr_prg (pyNot 7)
  else if index = 1 then pyOr (pyAnd curr_prg (pyNot 7)) 1
  else if index = 2 then pyOr (pyAnd curr_prg (pyNot 7)) 2
  else pyOr (pyAnd curr_prg (pyNot 7)) 3

/-- Method `async_set_fan_mode`.  `self._attr_fan_modes.index(fan_mode)` raises
`ValueError` for an unknown mode (modelled as `Except.error`), before any
register traffic.  Otherwise the flags register is read, re-encoded with
`fan_encode`, and written back; the cached fan mode is updated only when
`self.fan_modes` is truthy and the write succeeds. -/
def async_set_fan_mode (s : FancoilState) (fan_mode : String) (r201 : Option ℤ)
    (write_ok : Bool) : Except String CmdResult :=
  match list_index _attr_fan_modes fan_mode with
  | none => Except.error "ValueError"
  | some index =>
    let curr_prg := _async_read_int16_from_register r201
    let curr_prg := fan_encode index curr_prg
    if !_attr_fan_modes.isEmpty && write_ok then
      Except.ok { state := { s with fan_mode := some fan_mode },
                  writes := [(201, curr_prg)], logs := [] }
    else
      Except.ok { state := s, writes := [(201, curr_prg)],
                  logs := ["Modbus error setting fan mode"] }

/-- The flags-register bit-0..2 patterns `async_update` recognizes (the four
disjuncts of lines 117-140). -/
def valid_fan_bits (prg : ℤ) : Bool :=
  (!is_set prg 0 && !is_set prg 1 && !is_set prg 2) ||
  (is_set prg 0 && !is_set prg 1 && !is_set prg 2) ||
  (!is_set prg 0 && is_set prg 1 && !is_set prg 2) ||
  (is_set prg 0 && is_set prg 1 && !is_set prg 2)

/-- The season-register values `async_update` accepts (lines 149-152). -/
def valid_season (season : ℤ) : Bool :=
  season == 5 || season == 3 || season == 0

/-- The state after the four unconditional sensor stores of `async_update`
(lines 98-111), before any decode check has run. -/
def sensors_updated (s : FancoilState) (rd : RefreshReads) : FancoilState :=
  { s with target_temperature := some (_async_read_temp_from_register rd.r231),
           current_temperature := some (_async_read_temp_from_register rd.r0),
           actual_air_speed := some (_async_read_int16_from_register rd.r15),
           water_temperature := some (_async_read_int16_from_register rd.r1) }

/-! Helper lemmas about the Python bit operations restricted to the values the
claims quantify over (register payloads, which are naturals, and the failed
read sentinel `-1`). -/

theorem pyAnd_coe (a b : ℕ) : pyAnd a b = ((a &&& b : ℕ) : ℤ) := by
  simp [pyAnd]

theorem pyAnd_coe_not (a b : ℕ) : pyAnd a (pyNot b) = ((a ^^^ (a &&& b) : ℕ) : ℤ) := by
  have h2 : ¬ (0 ≤ (-(b:ℤ) - 1)) := by omega
  have e2 : (-(-(b:ℤ) - 1) - 1).toNat = b := by omega
  simp only [pyAnd, pyNot, h2, if_false, if_pos (by positivity : (0:ℤ) ≤ (a:ℤ))]
  rw [e2]
  simp

theorem pyOr_coe (a b : ℕ) : pyOr a b = ((a ||| b : ℕ) : ℤ) := by
  have h1 : ¬ (0 ≤ (-(a:ℤ) - 1)) := by omega
  have h2 : ¬ (0 ≤ (-(b:ℤ) - 1)) := by omega
  simp only [pyOr, pyNot, pyAnd, h1, if_false, if_neg h2]
  have e1 : (-(-(a:ℤ) - 1) - 1).toNat = a := by omega
  have e2 : (-(-(b:ℤ) - 1) - 1).toNat = b := by omega
  rw [e1, e2]
  omega

theorem is_set_coe (p : ℕ) (n : ℕ) : is_set p n = p.testBit n := by
  have e : ((2:ℤ) ^ n).toNat = 2 ^ n := by
    rw [show ((2:ℤ) ^ n) = ((2 ^ n : ℕ) : ℤ) by push_cast; ring, Int.toNat_natCast]
  have hcoe : pyAnd p (pyShl 1 n) = ((p &&& 2 ^ n : ℕ) : ℤ) := by
    simp [pyAnd, pyShl, e]
  rw [is_set, hcoe]
  rcases h : p.testBit n with _ | _
  · have hz : p &&& 2 ^ n = 0 := by
      apply Nat.eq_of_testBit_eq
      intro i
      simp only [Nat.testBit_and, Nat.testBit_two_pow, Nat.zero_testBit, Bool.and_eq_false_iff]
      by_cases hi : n = i
      · subst hi; left; exact h
      · right; simpa using hi
    simp [hz]
  · have hnz : p &&& 2 ^ n ≠ 0 := by
      intro hz
      have := congrArg (fun x => x.testBit n) hz
      simp [Nat.testBit_and, Nat.testBit_two_pow, h] at this
    simp only [bne_iff_ne, ne_eq, Int.natCast_eq_zero]
    simpa using hnz

/-! Structural lemmas about the two decode steps and `async_update`. -/

theorem fan_mode_step_some {s s' : FancoilState} {prg : ℤ}
    (h : fan_mode_step s prg = some s') :
    s'.target_temperature = s.target_temperature ∧
    s'.current_temperature = s.current_temperature ∧
    s'.actual_air_speed = s.actual_air_speed ∧
    s'.water_temperature = s.water_temperature ∧
    s'.hvac_mode = s.hvac_mode := by
  unfold fan_mode_step at h
  split_ifs at h <;> simp_all <;> subst h <;> simp

theorem fan_mode_step_none_iff (s : FancoilState) (prg : ℤ) :
    fan_mode_step s prg = none ↔ valid_fan_bits prg = false := by
  unfold fan_mode_step valid_fan_bits
  split_ifs with h1 h2 h3 h4 <;> simp_all

theorem season_step_some {s s' : FancoilState} {season : ℤ}
    (h : season_step s season = some s') :
    s'.target_temperature = s.target_temperature ∧
    s'.current_temperature = s.current_temperature ∧
    s'.actual_air_speed = s.actual_air_speed ∧
    s'.water_temperature = s.water_temperature ∧
    s'.fan_mode = s.fan_mode := by
  unfold season_step at h
  split_ifs at h <;> simp_all <;> subst h <;> simp

theorem season_step_none_iff (s : FancoilState) (season : ℤ) :
    season_step s season = none ↔ valid_season season = false := by
  unfold season_step valid_season
  split_ifs with h1 h2 <;> simp_all
  tauto


theorem season_step_hvac {s s' : FancoilState} {season : ℤ}
    (h : season_step s season = some s') :
    s'.hvac_mode = if season = 5 then some HVACMode.cool else some HVACMode.heat := by
  unfold season_step at h
  split_ifs at h with h1 h2
  · obtain rfl := Option.some.inj h
    simp [h1]
  · obtain rfl := Option.some.inj h
    simp [h1]

theorem async_update_eq (s : FancoilState) (rd : RefreshReads) :
    async_update s rd =
      match fan_mode_step (sensors_updated s rd) (_async_read_int16_from_register rd.r201) with
      | none => sensors_updated s rd
      | some s2 =>
        match season_step s2 (_async_read_int16_from_register rd.r233) with
        | none => s2
        | some s3 =>
          if is_set (_async_read_int16_from_register rd.r201) 7
          then { s3 with hvac_mode := some HVACMode.off } else s3 := rfl

theorem async_update_sensor_fields (s : FancoilState) (rd : RefreshReads) :
    (async_update s rd).target_temperature = some (_async_read_temp_from_register rd.r231) ∧
    (async_update s rd).current_temperature = some (_async_read_temp_from_register rd.r0) ∧
    (async_update s rd).actual_air_speed = some (_async_read_int16_from_register rd.r15) ∧
    (async_update s rd).water_temperature = some (_async_read_int16_from_register rd.r1) := by
  rw [async_update_eq]
  rcases hf : fan_mode_step (sensors_updated s rd) (_async_read_int16_from_register rd.r201)
    with _ | s2
  · simp [sensors_updated]
  · obtain ⟨ht2, hc2, ha2, hw2, _⟩ := fan_mode_step_some hf
    rcases hs : season_step s2 (_async_read_int16_from_register rd.r233) with _ | s3
    · simp [hs, ht2, hc2, ha2, hw2, sensors_updated]
    · obtain ⟨ht3, hc3, ha3, hw3, _⟩ := season_step_some hs
      simp only [hs]
      split_ifs <;> simp_all [sensors_updated]

theorem async_update_of_invalid_fan (s : FancoilState) (rd : RefreshReads)
    (h : valid_fan_bits (_async_read_int16_from_register rd.r201) = false) :
    async_update s rd = sensors_updated s rd := by
  rw [async_update_eq, (fan_mode_step_none_iff _ _).2 h]

theorem async_update_hvac_of_invalid_season (s : FancoilState) (rd : RefreshReads)
    (h : valid_season (_async_read_int16_from_register rd.r233) = false) :
    (async_update s rd).hvac_mode = s.hvac_mode := by
  rw [async_update_eq]
  rcases hf : fan_mode_step (sensors_updated s rd) (_async_read_int16_from_register rd.r201)
    with _ | s2
  · simp [sensors_updated]
  · dsimp only
    rw [(season_step_none_iff _ _).2 h]
    have := (fan_mode_step_some hf).2.2.2.2
    simp_all [sensors_updated]

theorem async_update_hvac_of_valid (s : FancoilState) (rd : RefreshReads)
    (hf : valid_fan_bits (_async_read_int16_from_register rd.r201) = true)
    (hs : valid_season (_async_read_int16_from_register rd.r233) = true) :
    (async_update s rd).hvac_mode =
      if is_set (_async_read_int16_from_register rd.r201) 7 then some HVACMode.off
      else if _async_read_int16_from_register rd.r233 = 5 then some HVACMode.cool
      else some HVACMode.heat := by
  rw [async_update_eq]
  rcases hfm : fan_mode_step (sensors_updated s rd) (_async_read_int16_from_register rd.r201)
    with _ | s2
  · rw [fan_mode_step_none_iff] at hfm
    simp [hfm] at hf
  · dsimp only
    rcases hsn : season_step s2 (_async_read_int16_from_register rd.r233) with _ | s3
    · rw [season_step_none_iff] at hsn
      simp [hsn] at hs
    · have h3 := season_step_hvac hsn
      simp only [hsn]
      split_ifs with h7 h5 <;> simp_all


theorem testBit_of_mod_eight (p i : ℕ) (hi : i < 3) : p.testBit i = (p % 8).testBit i := by
  have h := Nat.testBit_mod_two_pow p 3 i
  rw [show (2:ℕ) ^ 3 = 8 by norm_num] at h
  simp [hi] at h
  exact h.symm

theorem fan_decode_of_mod (s : FancoilState) (p v : ℕ) (hv : v < 4) (hp : p % 8 = v) :
    fan_mode_step s p = some { s with fan_mode := _attr_fan_modes.get? v } := by
  have key : ∀ i, i < 3 → is_set (p:ℤ) i = v.testBit i := by
    intro i hi
    rw [is_set_coe, testBit_of_mod_eight p i hi, hp]
  have h0 := key 0 (by norm_num)
  have h1 := key 1 (by norm_num)
  have h2 := key 2 (by norm_num)
  interval_cases v
  · rw [show Nat.testBit 0 0 = false by decide] at h0
    rw [show Nat.testBit 0 1 = false by decide] at h1
    rw [show Nat.testBit 0 2 = false by decide] at h2
    simp [fan_mode_step, h0, h1, h2]
  · rw [show Nat.testBit 1 0 = true by decide] at h0
    rw [show Nat.testBit 1 1 = false by decide] at h1
    rw [show Nat.testBit 1 2 = false by decide] at h2
    simp [fan_mode_step, h0, h1, h2]
  · rw [show Nat.testBit 2 0 = false by decide] at h0
    rw [show Nat.testBit 2 1 = true by decide] at h1
    rw [show Nat.testBit 2 2 = false by decide] at h2
    simp [fan_mode_step, h0, h1, h2]
  · rw [show Nat.testBit 3 0 = true by decide] at h0
    rw [show Nat.testBit 3 1 = true by decide] at h1
    rw [show Nat.testBit 3 2 = false by decide] at h2
    simp [fan_mode_step, h0, h1, h2]

theorem fan_encode_coe (v : ℕ) (hv : v < 4) (q : ℕ) :
    fan_encode v q = (((q ^^^ (q &&& 7)) ||| v : ℕ) : ℤ) := by
  have e0 : pyAnd q (pyNot 7) = ((q ^^^ (q &&& 7) : ℕ) : ℤ) := by
    rw [show (7:ℤ) = ((7:ℕ):ℤ) by simp, pyAnd_coe_not]
  interval_cases v
  · simp only [fan_encode, if_pos rfl, e0]
    norm_num
  · simp only [fan_encode, if_neg (by norm_num : (1:ℕ) ≠ 0), if_pos rfl, e0]
    rw [show (1:ℤ) = ((1:ℕ):ℤ) by simp, pyOr_coe]
    simp
  · simp only [fan_encode, if_neg (by norm_num : (2:ℕ) ≠ 0),
      if_neg (by norm_num : (2:ℕ) ≠ 1), if_pos rfl, e0]
    rw [show (2:ℤ) = ((2:ℕ):ℤ) by simp, pyOr_coe]
    simp
  · simp only [fan_encode, if_neg (by norm_num : (3:ℕ) ≠ 0),
      if_neg (by norm_num : (3:ℕ) ≠ 1), if_neg (by norm_num : (3:ℕ) ≠ 2), e0]
    rw [show (3:ℤ) = ((3:ℕ):ℤ) by simp, pyOr_coe]

theorem fan_encode_mod_eight (q v : ℕ) (hv : v < 8) :
    ((q ^^^ (q &&& 7)) ||| v) % 8 = v := by
  have and7 : ∀ x : ℕ, x &&& 7 = x % 8 := by
    intro x
    have h := Nat.and_pow_two_sub_one_eq_mod x 3
    norm_num at h
    exact h
  have h7bit : ∀ i, (7:ℕ).testBit i = decide (i < 3) := by
    intro i
    have h := Nat.testBit_two_pow_sub_one 3 i
    norm_num at h
    exact h
  rw [← and7 ((q ^^^ (q &&& 7)) ||| v)]
  apply Nat.eq_of_testBit_eq
  intro i
  simp only [Nat.testBit_and, Nat.testBit_or, Nat.testBit_xor, h7bit]
  by_cases hi : i < 3
  · simp [hi]
  · have hvi : v.testBit i = false :=
      Nat.testBit_eq_false_of_lt (lt_of_lt_of_le hv (by
        calc (8:ℕ) = 2 ^ 3 := by norm_num
        _ ≤ 2 ^ i := Nat.pow_le_pow_right (by norm_num) (by omega)))
    simp [hi, hvi]

theorem fan_encode_testBit_high (q v i : ℕ) (hv : v < 8) (hi : 3 ≤ i) :
    ((q ^^^ (q &&& 7)) ||| v).testBit i = q.testBit i := by
  have hvi : v.testBit i = false :=
    Nat.testBit_eq_false_of_lt (lt_of_lt_of_le hv (by
      calc (8:ℕ) = 2 ^ 3 := by norm_num
      _ ≤ 2 ^ i := Nat.pow_le_pow_right (by norm_num) hi))
  have h7 : (7:ℕ).testBit i = false := by
    rw [show (7:ℕ) = 2 ^ 3 - 1 from rfl, Nat.testBit_two_pow_sub_one]
    simp; omega
  simp [Nat.testBit_or, Nat.testBit_xor, Nat.testBit_and, hvi, h7]


/-! Claim theorems. -/

/-- C6: in `async_update`, each temperature-register read (registers 231 and 0)
stores the unscaled sentinel `-1` when the raw register value is exactly `0`,
and stores `raw / 10.0` for every non-zero raw value. -/
theorem c6_zero_raw_is_sentinel (v : ℤ) (s : FancoilState) (rd : RefreshReads)
    (hv : v ≠ 0) :
    _async_read_temp_from_register (some 0) = -1 ∧
    _async_read_temp_from_register (some v) = (v : ℚ) / 10 ∧
    (async_update s rd).target_temperature = some (_async_read_temp_from_register rd.r231) ∧
    (async_update s rd).current_temperature = some (_async_read_temp_from_register rd.r0) := by
  refine ⟨by norm_num [_async_read_temp_from_register, _async_read_int16_from_register], ?_,
    (async_update_sensor_fields s rd).1, (async_update_sensor_fields s rd).2.1⟩
  have : ((v : ℚ)) ≠ 0 := Int.cast_ne_zero.2 hv
  simp [_async_read_temp_from_register, _async_read_int16_from_register, this]

/-- C6 witness at raw values 0 and 215. -/
theorem c6_zero_raw_is_sentinel_witness :
    (215 : ℤ) ≠ 0 ∧
    _async_read_temp_from_register (some 0) = -1 ∧
    _async_read_temp_from_register (some 215) = (215 : ℚ) / 10 :=
  ⟨by decide,
    (c6_zero_raw_is_sentinel 215
      ⟨none, none, none, none, none, none⟩ ⟨none, none, none, none, none, none⟩
      (by decide)).1,
    (c6_zero_raw_is_sentinel 215
      ⟨none, none, none, none, none, none⟩ ⟨none, none, none, none, none, none⟩
      (by decide)).2.1⟩

/-- C7: `async_set_temperature` with a present value updates the cached target
to exactly the requested value when the transport write succeeds, and leaves
the whole state unchanged while logging an error when the write fails. -/
theorem c7_optimistic_target_update (s : FancoilState) (v : ℚ) :
    (async_set_temperature s (some v) true).state = { s with target_temperature := some v } ∧
    (async_set_temperature s (some v) true).logs = [] ∧
    (async_set_temperature s (some v) false).state = s ∧
    (async_set_temperature s (some v) false).state.target_temperature = s.target_temperature ∧
    (async_set_temperature s (some v) false).logs =
      ["Modbus error setting target temperature to Flexit"] := by
  simp [async_set_temperature]


/-- C10: a failed transport read returns the integer `-1` rather than a
distinguishable failure value; a failed temperature read therefore stores
`-1 / 10`, the same value a genuine raw reading of `-1` would produce, and a
failed flags or season read decodes as `-1` (all bits set), which aborts the
refresh as an invalid pattern, leaving the mode fields unchanged. -/
theorem c10_failed_read_minus_one (s : FancoilState) (r231 r0 r15 r1 r233 : Option ℤ) :
    _async_read_int16_from_register none = -1 ∧
    _async_read_temp_from_register none = -(1 / 10 : ℚ) ∧
    _async_read_temp_from_register none = _async_read_temp_from_register (some (-1)) ∧
    is_set (_async_read_int16_from_register none) 0 = true ∧
    is_set (_async_read_int16_from_register none) 1 = true ∧
    is_set (_async_read_int16_from_register none) 2 = true ∧
    fan_mode_step s (_async_read_int16_from_register none) = none ∧
    season_step s (_async_read_int16_from_register none) = none ∧
    (async_update s ⟨r231, r0, r15, r1, none, r233⟩).fan_mode = s.fan_mode ∧
    (async_update s ⟨r231, r0, r15, r1, none, r233⟩).hvac_mode = s.hvac_mode := by
  have h0 : is_set (-1 : ℤ) 0 = true := by decide
  have h1 : is_set (-1 : ℤ) 1 = true := by decide
  have h2 : is_set (-1 : ℤ) 2 = true := by decide
  have hread : _async_read_int16_from_register none = -1 := rfl
  have hfan : fan_mode_step s (-1 : ℤ) = none := by
    simp [fan_mode_step, h0, h1, h2]
  have hseason : season_step s (-1 : ℤ) = none := by
    simp [season_step]
  have hinv : valid_fan_bits
      (_async_read_int16_from_register (⟨r231, r0, r15, r1, none, r233⟩ : RefreshReads).r201)
      = false := by
    show valid_fan_bits (-1 : ℤ) = false
    simp [valid_fan_bits, h0, h1, h2]
  have hupd := async_update_of_invalid_fan s ⟨r231, r0, r15, r1, none, r233⟩ hinv
  refine ⟨hread, by norm_num [_async_read_temp_from_register, _async_read_int16_from_register],
    by norm_num [_async_read_temp_from_register, _async_read_int16_from_register],
    h0, h1, h2, hfan, hseason, ?_, ?_⟩ <;>
    rw [hupd] <;> simp [sensors_updated]


/-- C5 counterexample: `async_set_temperature` encodes with Python `int()`
truncation, not round-to-nearest: for requested value `0.26` the raw value
written to register 231 is `2`, while `0.26 * 10` rounded to the nearest
integer is `3`. -/
theorem c5_counterexample :
    (async_set_temperature
        ⟨none, none, none, none, none, none⟩ (some (26 / 100)) true).writes = [(231, 2)] ∧
    round ((26 / 100 : ℚ) * 10) = 3 ∧ (2 : ℤ) ≠ 3 := by
  refine ⟨?_, by norm_num [round_eq], by decide⟩
  have h : pyInt ((26 / 100 : ℚ) * 10) = 2 := by
    rw [pyInt, if_pos (by norm_num)]
    norm_num
  simp [async_set_temperature, h]

/-- C5 amended: the raw value written to register 231 is `int(v * 10)`,
truncation toward zero of `v * 10`; for every value `v = d / 10` with one
decimal place of precision this truncation is exact, the raw value is `d`
(in particular `21.5` writes raw `215`), and decoding `raw / 10.0` returns
`v`. -/
theorem c5_encode_truncates (s : FancoilState) (w : Bool) (v : ℚ) (d : ℤ) :
    (async_set_temperature s (some v) w).writes = [(231, pyInt (v * 10))] ∧
    pyInt (((d : ℚ) / 10) * 10) = d ∧
    ((pyInt (((d : ℚ) / 10) * 10) : ℚ) / 10) = (d : ℚ) / 10 ∧
    (async_set_temperature s (some (215 / 10 : ℚ)) w).writes = [(231, pyInt ((215 / 10 : ℚ) * 10))] ∧
    pyInt ((215 / 10 : ℚ) * 10) = 215 := by
  have hd : ((d : ℚ) / 10) * 10 = (d : ℚ) := by field_simp
  have hint : pyInt (((d : ℚ) / 10) * 10) = d := by
    rw [hd, pyInt]
    split_ifs <;> simp
  have h215 : pyInt ((215 / 10 : ℚ) * 10) = 215 := by
    rw [pyInt, if_pos (by norm_num)]
    norm_num
  exact ⟨by cases w <;> simp [async_set_temperature],
    hint, by rw [hint],
    by cases w <;> simp [async_set_temperature], h215⟩


/-- C9 counterexample: a fan-mode string outside the supported enumeration
makes `async_set_fan_mode` raise `ValueError` out of
`self._attr_fan_modes.index(fan_mode)`; the exception is not handled locally,
so it crosses the boundary into the host layer. -/
theorem c9_counterexample :
    ("Medium" ∉ _attr_fan_modes) ∧
    async_set_fan_mode ⟨none, none, none, none, none, none⟩ "Medium" (some 0) true
      = Except.error "ValueError" := by
  refine ⟨by decide, ?_⟩
  have h : list_index _attr_fan_modes "Medium" = none := by decide
  simp [async_set_fan_mode, h]

/-- C9 amended: a `set_temperature` call with no value and a `set_hvac_mode`
call with an unsupported mode are handled locally (logged, no write, no
exception), but an unrecognized fan-mode string passed to `set_fan_mode`
raises `ValueError`, which propagates to the host layer. -/
theorem c9_invalid_command_handling (s : FancoilState) (w : Bool) (r : Option ℤ)
    (m fm : String) (hm : m ∉ (["off", "cool", "heat"] : List String))
    (hfm : list_index _attr_fan_modes fm = none) :
    async_set_temperature s none w =
      { state := s, writes := [], logs := ["Received invalid temperature"] } ∧
    async_set_hvac_mode s m r =
      { state := s, writes := [], logs := ["Modbus error setting hvac mode"] } ∧
    async_set_fan_mode s fm r w = Except.error "ValueError" := by
  simp only [List.mem_cons, List.mem_singleton, List.not_mem_nil, or_false, not_or] at hm
  obtain ⟨h1, h2, h3⟩ := hm
  refine ⟨rfl, ?_, ?_⟩
  · simp [async_set_hvac_mode, h1, h2, h3]
  · simp [async_set_fan_mode, hfm]

/-- C9 witness at the missing-temperature call, mode `"dry"` and fan mode
`"Medium"`. -/
theorem c9_invalid_command_handling_witness :
    ("dry" ∉ (["off", "cool", "heat"] : List String)) ∧
    list_index _attr_fan_modes "Medium" = none ∧
    async_set_temperature ⟨none, none, none, none, none, none⟩ none true =
      { state := ⟨none, none, none, none, none, none⟩, writes := [],
        logs := ["Received invalid temperature"] } ∧
    async_set_fan_mode ⟨none, none, none, none, none, none⟩ "Medium" (some 0) true
      = Except.error "ValueError" :=
  ⟨by decide, by decide,
    (c9_invalid_command_handling ⟨none, none, none, none, none, none⟩ true (some 0)
      "dry" "Medium" (by decide) (by decide)).1,
    (c9_invalid_command_handling ⟨none, none, none, none, none, none⟩ true (some 0)
      "dry" "Medium" (by decide) (by decide)).2.2⟩


/-- C1 counterexample: with an invalid flags pattern (value 4, bit 2 set) the
refresh is abandoned for the mode fields only; `target_temperature` does not
retain its previous value `22` but is overwritten with the freshly read
`25.0`. -/
theorem c1_counterexample :
    valid_fan_bits (_async_read_int16_from_register (some 4)) = false ∧
    (async_update
        ⟨some 22, some 20, some 3, some 45, some "Auto", some HVACMode.heat⟩
        ⟨some 250, some 200, some 3, some 45, some 4, some 0⟩).target_temperature
      ≠ (⟨some 22, some 20, some 3, some 45, some "Auto",
          some HVACMode.heat⟩ : FancoilState).target_temperature := by
  refine ⟨by decide, ?_⟩
  rw [(async_update_sensor_fields _ _).1]
  simp only [_async_read_temp_from_register, _async_read_int16_from_register]
  norm_num

/-- C1 amended: only the mode fields are protected by an abandoned refresh:
an invalid flags pattern leaves `fan_mode` and `hvac_mode` at their previous
values, and an invalid season value leaves `hvac_mode` at its previous value;
but `target_temperature`, `current_temperature`, `water_temperature` and
`fan_speed` are overwritten unconditionally with the freshly read values
before any validity check runs. -/
theorem c1_mode_fields_only_preserved (s : FancoilState) (rd : RefreshReads) :
    (valid_fan_bits (_async_read_int16_from_register rd.r201) = false →
      (async_update s rd).fan_mode = s.fan_mode ∧
      (async_update s rd).hvac_mode = s.hvac_mode) ∧
    (valid_season (_async_read_int16_from_register rd.r233) = false →
      (async_update s rd).hvac_mode = s.hvac_mode) ∧
    (async_update s rd).target_temperature = some (_async_read_temp_from_register rd.r231) ∧
    (async_update s rd).current_temperature = some (_async_read_temp_from_register rd.r0) ∧
    (async_update s rd).actual_air_speed = some (_async_read_int16_from_register rd.r15) ∧
    (async_update s rd).water_temperature = some (_async_read_int16_from_register rd.r1) := by
  obtain ⟨ht, hc, ha, hw⟩ := async_update_sensor_fields s rd
  refine ⟨fun hf => ?_, fun hs => async_update_hvac_of_invalid_season s rd hs,
    ht, hc, ha, hw⟩
  rw [async_update_of_invalid_fan s rd hf]
  simp [sensors_updated]

/-- C1 witness with an invalid flags pattern and an invalid season value. -/
theorem c1_mode_fields_only_preserved_witness :
    valid_fan_bits (_async_read_int16_from_register (some 4)) = false ∧
    valid_season (_async_read_int16_from_register (some 9)) = false ∧
    ((async_update
        ⟨some 22, some 20, some 3, some 45, some "Auto", some HVACMode.heat⟩
        ⟨some 250, some 200, some 3, some 45, some 4, some 9⟩).fan_mode = some "Auto" ∧
      (async_update
        ⟨some 22, some 20, some 3, some 45, some "Auto", some HVACMode.heat⟩
        ⟨some 250, some 200, some 3, some 45, some 4, some 9⟩).hvac_mode
        = some HVACMode.heat) :=
  ⟨by decide, by decide,
    (c1_mode_fields_only_preserved
      ⟨some 22, some 20, some 3, some 45, some "Auto", some HVACMode.heat⟩
      ⟨some 250, some 200, some 3, some 45, some 4, some 9⟩).1 (by decide)⟩


/-- C2 counterexample: flags `132` (bits 2 and 7 set) with the valid season
value `5`: bit 7 is set and the season register decodes to a valid mode, yet
the refresh aborts at the earlier invalid-PRG check, so the resulting
`hvac_mode` stays `heat` instead of becoming `Off`. -/
theorem c2_counterexample :
    is_set (_async_read_int16_from_register (some 132)) 7 = true ∧
    valid_season (_async_read_int16_from_register (some 5)) = true ∧
    (async_update
        ⟨some 22, some 20, some 3, some 45, some "Auto", some HVACMode.heat⟩
        ⟨some 250, some 200, some 3, some 45, some 132, some 5⟩).hvac_mode
      = some HVACMode.heat ∧
    some HVACMode.heat ≠ some HVACMode.off := by
  refine ⟨by decide, by decide, ?_, by decide⟩
  rw [async_update_of_invalid_fan _ _ (by decide)]
  simp [sensors_updated]

/-- C2 amended: for every flags value whose bits 0-2 form a recognized fan
pattern and whose bit 7 is set, a valid season decode yields `hvac_mode = Off`
(the override runs after the season decode), while an invalid season value
still aborts the refresh with `hvac_mode` unchanged, despite bit 7 being
set. -/
theorem c2_off_override_after_season (s : FancoilState) (rd : RefreshReads)
    (hf : valid_fan_bits (_async_read_int16_from_register rd.r201) = true)
    (h7 : is_set (_async_read_int16_from_register rd.r201) 7 = true) :
    (valid_season (_async_read_int16_from_register rd.r233) = true →
      (async_update s rd).hvac_mode = some HVACMode.off) ∧
    (valid_season (_async_read_int16_from_register rd.r233) = false →
      (async_update s rd).hvac_mode = s.hvac_mode) := by
  refine ⟨fun hs => ?_, fun hs => async_update_hvac_of_invalid_season s rd hs⟩
  rw [async_update_hvac_of_valid s rd hf hs, if_pos h7]

/-- C2 witness: flags `129` (Silent pattern, bit 7 set) with season `5` gives
`Off`. -/
theorem c2_off_override_after_season_witness :
    valid_fan_bits (_async_read_int16_from_register (some 129)) = true ∧
    is_set (_async_read_int16_from_register (some 129)) 7 = true ∧
    valid_season (_async_read_int16_from_register (some 5)) = true ∧
    (async_update
        ⟨some 22, some 20, some 3, some 45, some "Auto", some HVACMode.heat⟩
        ⟨some 250, some 200, some 3, some 45, some 129, some 5⟩).hvac_mode
      = some HVACMode.off :=
  ⟨by decide, by decide, by decide,
    (c2_off_override_after_season
      ⟨some 22, some 20, some 3, some 45, some "Auto", some HVACMode.heat⟩
      ⟨some 250, some 200, some 3, some 45, some 129, some 5⟩
      (by decide) (by decide)).1 (by decide)⟩


/-- C4: decoding signals an invalid state exactly when the register content is
outside the documented enumeration: the fan decode fails iff the flag bits 0-2
are outside the four recognized patterns (in particular whenever bit 2 is
set), the season decode fails iff the value is outside `{0, 3, 5}`, season `5`
decodes to `Cool` and `0`/`3` to `Heat`, and each failure aborts the refresh,
leaving the mode fields unchanged. -/
theorem c4_invalid_values_abort (s : FancoilState) (prg season : ℤ) (rd : RefreshReads) :
    (fan_mode_step s prg = none ↔ valid_fan_bits prg = false) ∧
    (is_set prg 2 = true → fan_mode_step s prg = none) ∧
    (season_step s season = none ↔ valid_season season = false) ∧
    season_step s 5 = some { s with hvac_mode := some HVACMode.cool } ∧
    (season = 3 ∨ season = 0 → season_step s season
      = some { s with hvac_mode := some HVACMode.heat }) ∧
    (valid_fan_bits (_async_read_int16_from_register rd.r201) = false →
      (async_update s rd).fan_mode = s.fan_mode ∧
      (async_update s rd).hvac_mode = s.hvac_mode) ∧
    (valid_season (_async_read_int16_from_register rd.r233) = false →
      (async_update s rd).hvac_mode = s.hvac_mode) := by
  refine ⟨fan_mode_step_none_iff s prg, fun h2 => ?_,
    season_step_none_iff s season, by simp [season_step], fun hs => ?_,
    fun hf => ?_, fun hs => async_update_hvac_of_invalid_season s rd hs⟩
  · simp [fan_mode_step, h2]
  · rcases hs with h | h <;> subst h <;> simp [season_step]
  · rw [async_update_of_invalid_fan s rd hf]
    simp [sensors_updated]

/-- C4 witness: flags `4` (bit 2 set) fails the fan decode, season `9` fails
the season decode, seasons `5`, `3`, `0` decode to `Cool`, `Heat`, `Heat`. -/
theorem c4_invalid_values_abort_witness :
    is_set (4 : ℤ) 2 = true ∧
    fan_mode_step ⟨none, none, none, none, none, none⟩ 4 = none ∧
    season_step ⟨none, none, none, none, none, none⟩ 9 = none ∧
    season_step ⟨none, none, none, none, none, none⟩ 5
      = some ⟨none, none, none, none, none, some HVACMode.cool⟩ ∧
    season_step ⟨none, none, none, none, none, none⟩ 3
      = some ⟨none, none, none, none, none, some HVACMode.heat⟩ :=
  ⟨by decide,
    (c4_invalid_values_abort ⟨none, none, none, none, none, none⟩ 4 9
      ⟨none, none, none, none, none, none⟩).2.1 (by decide),
    (c4_invalid_values_abort ⟨none, none, none, none, none, none⟩ 4 9
      ⟨none, none, none, none, none, none⟩).2.2.1.2 (by decide),
    (c4_invalid_values_abort ⟨none, none, none, none, none, none⟩ 4 9
      ⟨none, none, none, none, none, none⟩).2.2.2.1,
    (c4_invalid_values_abort ⟨none, none, none, none, none, none⟩ 4 3
      ⟨none, none, none, none, none, none⟩).2.2.2.2.1 (Or.inl rfl)⟩


/-- C8: `async_set_hvac_mode` with mode `Off` issues exactly one register
write: register 201 receives the pre-read flags value with bit 7 set and all
other bits preserved, and the season register 233 is not written. -/
theorem c8_set_hvac_off_single_write (s : FancoilState) (p : ℕ) (n : ℕ) (hn : n ≠ 7) :
    async_set_hvac_mode s "off" (some (p : ℤ)) =
      { state := s, writes := [(201, pyOr (p : ℤ) (pyShl 1 7))], logs := [] } ∧
    is_set (pyOr (p : ℤ) (pyShl 1 7)) 7 = true ∧
    is_set (pyOr (p : ℤ) (pyShl 1 7)) n = is_set (p : ℤ) n ∧
    (∀ val : ℤ, ((233 : ℤ), val) ∉ (async_set_hvac_mode s "off" (some (p : ℤ))).writes) ∧
    (async_set_hvac_mode s "off" (some (p : ℤ))).writes.length = 1 := by
  have hshl : pyShl 1 7 = ((128 : ℕ) : ℤ) := by norm_num [pyShl]
  have hor : pyOr (p : ℤ) (pyShl 1 7) = ((p ||| 128 : ℕ) : ℤ) := by
    rw [hshl, pyOr_coe]
  have hcmd : async_set_hvac_mode s "off" (some (p : ℤ)) =
      { state := s, writes := [(201, pyOr (p : ℤ) (pyShl 1 7))], logs := [] } := by
    simp [async_set_hvac_mode, _async_read_int16_from_register]
  refine ⟨hcmd, ?_, ?_, fun val => ?_, by rw [hcmd]; rfl⟩
  · rw [hor, is_set_coe]
    simp [Nat.testBit_or, show Nat.testBit 128 7 = true by decide]
  · rw [hor, is_set_coe, is_set_coe]
    have h128 : (128 : ℕ).testBit n = false := by
      rw [show (128 : ℕ) = 2 ^ 7 from rfl, Nat.testBit_two_pow]
      simpa using fun h => hn h.symm
    simp [Nat.testBit_or, h128]
  · rw [hcmd]
    simp

/-- C8 witness at pre-read flags value 5 and preserved bit 0. -/
theorem c8_set_hvac_off_single_write_witness :
    (0 : ℕ) ≠ 7 ∧
    async_set_hvac_mode ⟨none, none, none, none, none, none⟩ "off" (some ((5 : ℕ) : ℤ)) =
      { state := ⟨none, none, none, none, none, none⟩,
        writes := [(201, pyOr ((5 : ℕ) : ℤ) (pyShl 1 7))], logs := [] } ∧
    is_set (pyOr ((5 : ℕ) : ℤ) (pyShl 1 7)) 7 = true ∧
    is_set (pyOr ((5 : ℕ) : ℤ) (pyShl 1 7)) 0 = is_set ((5 : ℕ) : ℤ) 0 :=
  ⟨by decide,
    (c8_set_hvac_off_single_write ⟨none, none, none, none, none, none⟩ 5 0 (by decide)).1,
    (c8_set_hvac_off_single_write ⟨none, none, none, none, none, none⟩ 5 0 (by decide)).2.1,
    (c8_set_hvac_off_single_write ⟨none, none, none, none, none, none⟩ 5 0 (by decide)).2.2.1⟩


/-- C3: for every flags value whose bits 0-2 form one of the four recognized
patterns (value `v` of the low three bits, bit 0 first: 000, 100, 010, 110 for
`v` = 0, 1, 2, 3), the decode yields `_attr_fan_modes[v]` (Auto, Silent,
Night, High); the `async_set_fan_mode` encoding of that mode applied to any
flags value writes back exactly that low-bit pattern while preserving every
bit above bit 2, and decoding the encoded value returns the original fan
mode. -/
theorem c3_fan_decode_encode_roundtrip (s : FancoilState) (p q v : ℕ)
    (hv : v < 4) (hp : p % 8 = v) :
    fan_mode_step s (p : ℤ) = some { s with fan_mode := _attr_fan_modes.get? v } ∧
    (∀ m, _attr_fan_modes.get? v = some m →
      async_set_fan_mode s m (some (q : ℤ)) true =
        Except.ok { state := { s with fan_mode := some m },
                    writes := [(201, fan_encode v (q : ℤ))], logs := [] }) ∧
    fan_encode v (q : ℤ) = (((q ^^^ (q &&& 7)) ||| v : ℕ) : ℤ) ∧
    ((q ^^^ (q &&& 7)) ||| v) % 8 = v ∧
    (∀ i, 3 ≤ i → ((q ^^^ (q &&& 7)) ||| v).testBit i = q.testBit i) ∧
    (∀ i, 3 ≤ i → is_set (fan_encode v (q : ℤ)) i = is_set (q : ℤ) i) ∧
    fan_mode_step s (fan_encode v (q : ℤ))
      = some { s with fan_mode := _attr_fan_modes.get? v } := by
  have hcoe := fan_encode_coe v hv q
  have hmod := fan_encode_mod_eight q v (by omega)
  have hhigh : ∀ i, 3 ≤ i → ((q ^^^ (q &&& 7)) ||| v).testBit i = q.testBit i :=
    fun i hi => fan_encode_testBit_high q v i (by omega) hi
  refine ⟨fan_decode_of_mod s p v hv hp, fun m hm => ?_, hcoe, hmod, hhigh,
    fun i hi => by rw [hcoe, is_set_coe, is_set_coe, hhigh i hi],
    by rw [hcoe]; exact fan_decode_of_mod s _ v hv hmod⟩
  have hidx : list_index _attr_fan_modes m = some v := by
    interval_cases v <;> simp [_attr_fan_modes] at hm <;> subst hm <;> decide
  simp [async_set_fan_mode, hidx, _async_read_int16_from_register,
    show _attr_fan_modes.isEmpty = false from rfl]

/-- C3 witness: flags 10 (pattern 010, Night) decodes to index 2, and encoding
Night onto flags 171 preserves the upper bits and round-trips. -/
theorem c3_fan_decode_encode_roundtrip_witness :
    (2 : ℕ) < 4 ∧ (10 : ℕ) % 8 = 2 ∧
    fan_mode_step ⟨none, none, none, none, none, none⟩ ((10 : ℕ) : ℤ)
      = some { (⟨none, none, none, none, none, none⟩ : FancoilState) with
               fan_mode := _attr_fan_modes.get? 2 } ∧
    ((171 ^^^ (171 &&& 7)) ||| 2) % 8 = 2 ∧
    fan_mode_step ⟨none, none, none, none, none, none⟩ (fan_encode 2 ((171 : ℕ) : ℤ))
      = some { (⟨none, none, none, none, none, none⟩ : FancoilState) with
               fan_mode := _attr_fan_modes.get? 2 } :=
  ⟨by decide, by decide,
    (c3_fan_decode_encode_roundtrip ⟨none, none, none, none, none, none⟩ 10 171 2
      (by decide) (by decide)).1,
    (c3_fan_decode_encode_roundtrip ⟨none, none, none, none, none, none⟩ 10 171 2
      (by decide) (by decide)).2.2.2.1,
    (c3_fan_decode_encode_roundtrip ⟨none, none, none, none, none, none⟩ 10 171 2
      (by decide) (by decide)).2.2.2.2.2.2⟩

end Fancoil
